import Mathlib

/-!
# beacon-transporter — shallow embedding and verification

This file embeds the delivery state machine of the `beacon-transporter`
library in Lean 4 and proves properties of it.

The embedded code, by source location:

* `src/src/utils.ts` — `createHeaders` (lines 7-16), `throttle`
  (lines 81-101).
* `src/src/network.ts` — `keepaliveFetch` (lines 91-131), `fallbackFetch`
  (lines 144-201), `serializeError` (lines 133-139).
* `src/src/queue.ts`, third revision in the file (lines 384-669) —
  `Queue` (`push`, `onNotify`, `clear`, `peek`, `peekBack`,
  `replayEntries`, the `disablePersistence` latch) and `RetryDB`
  (`clearQueue`, listener set).
* `src/unnamed/part_020` — `Beacon.retry` (lines 79-121),
  `Beacon.shouldPersist` (lines 133-154), `Beacon.isRetryableError`
  (lines 123-131), and the `beacon` function of `createBeacon`
  (lines 209-214); its no-fetch branch calls `xhr` of
  `src/unnamed/part_012`, which fires an XMLHttpRequest and returns
  `undefined`.

Modelling conventions:

* JavaScript header records (`Record<string, string>`) are association
  lists; JS property assignment `h[k] = v` is `setHeader` (overwrite in
  place, append when new).  `createHeaders` of the source mutates the map
  it is given and returns the same object; the embedding threads that
  aliasing explicitly: wherever the source keeps using the mutated
  object, the embedding keeps using the returned map.
* Asynchrony is flattened to a sequential model: each network request or
  durable-store operation consumes one outcome from an explicit oracle
  (`Nat → _` or a per-operation environment record).  A promise that can
  only resolve is a total function into its result type.
* The durable ordered-log engine (`idb-queue`) is external to the core:
  it is modelled as a timestamp-sorted list with `insertByTimestamp` /
  head removal.  Its capacity eviction (`maxNumber`,
  `batchEvictionNumber`) is not modelled; no claim verified here
  involves the cap.
-/

/-! ## Header maps and the header builder (`src/src/utils.ts` 7-16) -/

/-- A JS `Record<string, string>` of HTTP headers, as an association list
in insertion order. -/
abbrev Headers := List (String × String)

/-- JS property assignment `h[k] = v`: overwrite the entry in place if the
key exists, otherwise append it. -/
def setHeader (h : Headers) (k v : String) : Headers :=
  if h.any (fun p => p.1 == k) then
    h.map (fun p => if p.1 == k then (k, v) else p)
  else
    h ++ [(k, v)]

/-- Does the header map contain the key `k`? -/
def headersHaveKey (h : Headers) (k : String) : Bool :=
  h.any (fun p => p.1 == k)

/-- `JSON.stringify({ attempt, errorCode })`: the key `errorCode` is
omitted when the value is `undefined` (standard JSON.stringify
behaviour). -/
def jsonRetryContext (attempt : Nat) (errorCode : Option Nat) : String :=
  "\x7b\"attempt\":" ++ toString attempt ++
    (match errorCode with
     | none => ""
     | some c => ",\"errorCode\":" ++ toString c) ++ "\x7d"

/-- `createHeaders` of `src/src/utils.ts` lines 7-16.  The source checks
`!headerName || attempt < 1`; `!headerName` is true both for an absent
header name and for the empty string, so the embedding treats
`some ""` like `none`.  On the mutating branch the source does
`headers[headerName] = JSON.stringify({ attempt, errorCode })` and
returns the same (mutated) object. -/
def createHeaders (headers : Headers) (headerName : Option String)
    (attempt : Nat) (errorCode : Option Nat) : Headers :=
  match headerName with
  | none => headers
  | some n =>
    if n = "" ∨ attempt < 1 then headers
    else setHeader headers n (jsonRetryContext attempt errorCode)

/-! ## Result taxonomy -/

/-- The `type` tags of the result taxonomy
(`RequestResult` of the interfaces revision `src/unnamed/part_017`). -/
inductive ResultType where
  | success
  | unknown
  | response
  | network
  | persisted
deriving Repr, DecidableEq

/-- What the transport promise used by the `part_020` beacon resolves
with: a success, an HTTP error response, a network failure, or
`accepted` for the `sendBeacon` handoff whose delivery state is not
observable (the source resolves `undefined` there; the spec taxonomy
tags it `unknown`). -/
inductive SendOutcome where
  | success (statusCode : Nat)
  | response (statusCode : Nat)
  | network
  | accepted
deriving Repr, DecidableEq

/-- The `type` tag of a transport outcome, in the spec's taxonomy. -/
def SendOutcome.rtype : SendOutcome → ResultType
  | .success _ => .success
  | .response _ => .response
  | .network => .network
  | .accepted => .unknown

/-- `maybeError.statusCode`: present for responses (and successes),
`undefined` for network failures and the `sendBeacon` handoff. -/
def SendOutcome.statusCode? : SendOutcome → Option Nat
  | .success c => some c
  | .response c => some c
  | .network => none
  | .accepted => none

/-- Is the outcome a failure (`response` or `network`), i.e. not in the
`typeof maybeError === 'undefined' || maybeError.type === 'success'`
branch of `Beacon.retry`? -/
def SendOutcome.isFailure : SendOutcome → Bool
  | .response _ => true
  | .network => true
  | _ => false

/-- The tagged results of `src/src/network.ts`: each carries the `drop`
flag; `response` and `network` carry `rawError`. -/
inductive RequestResult where
  | success (drop : Bool) (statusCode : Nat)
  | response (drop : Bool) (statusCode : Nat) (rawError : String)
  | network (drop : Bool) (rawError : String)
  | unknown (drop : Bool)
deriving Repr, DecidableEq

/-- The `type` tag of a `network.ts` result. -/
def RequestResult.rtype : RequestResult → ResultType
  | .success _ _ => .success
  | .response _ _ _ => .response
  | .network _ _ => .network
  | .unknown _ => .unknown

/-- Is the result a `success`?  This is the test
`!maybeError || maybeError.type === 'success'` of the replay loop
(the `!maybeError` disjunct is vestigial: `network.ts` always resolves
an object). -/
def RequestResult.isSuccess : RequestResult → Bool
  | .success _ _ => true
  | _ => false

/-! ## Transport (`src/src/network.ts` 91-131 and 144-201) -/

/-- One outcome of the host's global `fetch`: the promise either resolves
with a response (`ok` flag, status, statusText) or rejects with an error
whose `message` may be absent. -/
inductive FetchOutcome where
  | resolved (ok : Bool) (status : Nat) (statusText : String)
  | rejected (message : Option String)
deriving Repr, DecidableEq

/-- `serializeError` of `src/src/network.ts` lines 133-139. -/
def serializeError : Option String → String
  | some m => m
  | none => "UNKNOWN_ERROR"

/-- `keepaliveFetch` of `src/src/network.ts` lines 91-131: try `fetch`
with keepalive, on rejection retry without keepalive, then classify.
`first` is the outcome of the keepalive request, `second` of the
non-keepalive retry (consulted only when the first rejected). -/
def keepaliveFetch (first second : FetchOutcome) : RequestResult :=
  match first with
  | .resolved ok status statusText =>
    if ok then .success false status else .response false status statusText
  | .rejected _ =>
    match second with
    | .resolved ok status statusText =>
      if ok then .success false status else .response false status statusText
    | .rejected m => .network false (serializeError m)

/-- `fallbackFetch` of `src/src/network.ts` lines 144-201: when the host
has `sendBeacon` and it accepts the payload, resolve `unknown`;
otherwise do a plain POST and classify (its success branch hardcodes
status 200). -/
def fallbackFetch (supportSendBeacon accepted : Bool)
    (f : FetchOutcome) : RequestResult :=
  if supportSendBeacon && accepted then .unknown false
  else
    match f with
    | .resolved ok status statusText =>
      if ok then .success false 200 else .response false status statusText
    | .rejected m => .network false (serializeError m)

/-! ## The RetryEntry data model (`src/unnamed/part_015` 61-68) -/

/-- The unit of persistence.  `headers` is `Option` because the replay
path of `queue.ts` re-enqueues records without a `headers` property. -/
structure RetryEntry where
  url : String
  body : String
  headers : Option Headers
  statusCode : Option Nat
  timestamp : Nat
  attemptCount : Nat
deriving Repr, DecidableEq

/-! ## The Beacon attempt loop (`src/unnamed/part_020` 25-155) -/

/-- The in-memory retry configuration consumed by the `part_020` beacon:
`config.retry.limit`, `config.retry.headerName`, `config.retry.persist`,
and the two status-code allow-lists (after the constructor's defaulting,
lines 41-44). -/
structure BeaconConfigM where
  limit : Nat
  headerName : Option String
  persist : Bool
  inMemoryRetryStatusCodes : List Nat
  persistRetryStatusCodes : List Nat
deriving Repr, DecidableEq

/-- The environment one iteration of the attempt loop observes: what the
transport resolved with, `navigator.onLine`, and whether the beacon's
`isClearQueuePending` flag has been set by a `clearQueue` call. -/
structure AttemptEnv where
  result : SendOutcome
  online : Bool
  clearPending : Bool
deriving Repr, DecidableEq

/-- `Beacon.getAttemptCount` (`part_020` 69-71):
`retryLimit - retryCountLeft + 1`, the 1-based attempt number. -/
def getAttemptCount (limit retryCountLeft : Nat) : Nat :=
  limit - retryCountLeft + 1

/-- `Beacon.isRetryableError` (`part_020` 123-131): network failures are
always retryable in memory; responses only when the status code is in
the in-memory allow-list. -/
def isRetryableError (cfg : BeaconConfigM) (error : SendOutcome) : Bool :=
  match error with
  | .network => true
  | .response c => cfg.inMemoryRetryStatusCodes.contains c
  | _ => false

/-- `Beacon.shouldPersist` (`part_020` 133-154). -/
def shouldPersist (cfg : BeaconConfigM) (env : AttemptEnv)
    (retryCountLeft : Nat) (error : SendOutcome) : Bool :=
  if env.clearPending || !cfg.persist then false
  else if !env.online ||
      (retryCountLeft == 0 && (match error with | .network => true | _ => false)) then
    true
  else if (match error with
           | .response c => cfg.persistRetryStatusCodes.contains c
           | _ => false) then
    true
  else false

/-- The observable outcome of one `Beacon.send`: the value the promise
resolves with, the entries handed to `pushToQueue`, whether
`notifyQueue` was called, and the final state of the caller's (mutated)
headers object. -/
structure LoopOutput where
  result : SendOutcome
  pushed : List RetryEntry
  notified : Bool
  finalHeaders : Headers
deriving Repr, DecidableEq

/-- `Beacon.retry` (`part_020` 79-121), flattened to a recursive
function.  Iteration `i` of the loop observes `env a` where `a` is the
0-based attempt index.  `headers` is the caller's headers object; the
source passes it to `createHeaders`, which mutates it in place and
returns the same object, so the embedding uses the returned map both as
the fetch headers and as the headers object from then on (the
`pushToQueue` argument and the value threaded into the recursive
call). -/
def beaconLoop (cfg : BeaconConfigM) (url body : String) (timestamp : Nat)
    (env : Nat → AttemptEnv) (retryCountLeft : Nat) (headers : Headers)
    (errorCode : Option Nat) : LoopOutput :=
  let a := getAttemptCount cfg.limit retryCountLeft - 1
  let fetchHeaders := createHeaders headers cfg.headerName a errorCode
  let e := env a
  match e.result with
  | .success c =>
    { result := .success c, pushed := [],
      notified := !e.clearPending && cfg.persist, finalHeaders := fetchHeaders }
  | .accepted =>
    { result := .accepted, pushed := [],
      notified := !e.clearPending && cfg.persist, finalHeaders := fetchHeaders }
  | err =>
    if shouldPersist cfg e retryCountLeft err then
      { result := err,
        pushed := [{ url := url, body := body, headers := some fetchHeaders,
                     statusCode := err.statusCode?, timestamp := timestamp,
                     attemptCount := getAttemptCount cfg.limit retryCountLeft }],
        notified := false, finalHeaders := fetchHeaders }
    else
      match retryCountLeft with
      | 0 =>
        { result := err, pushed := [], notified := false,
          finalHeaders := fetchHeaders }
      | n + 1 =>
        if isRetryableError cfg err then
          beaconLoop cfg url body timestamp env n fetchHeaders err.statusCode?
        else
          { result := err, pushed := [], notified := false,
            finalHeaders := fetchHeaders }

/-- `Beacon.send` (`part_020` 51-63): enter the loop with
`retryCountLeft = retryLimit`, the caller's headers, and no error
code. -/
def beaconSend (cfg : BeaconConfigM) (url body : String) (timestamp : Nat)
    (env : Nat → AttemptEnv) (headers : Headers) : LoopOutput :=
  beaconLoop cfg url body timestamp env cfg.limit headers none

/-- The `beacon` function of `createBeacon` (`part_020` 209-214).  When
the host has no global fetch (or no `Promise`), the source does
`return xhr(url, body, headers)` where `xhr` (`part_012`) fires an
XMLHttpRequest and returns `undefined`; the call then yields no promise
and no result, modelled as `none`.  Otherwise it returns the `send`
promise of a fresh `Beacon`, modelled as `some` of the loop's
output. -/
def beaconFunc (fetchSupported promiseSupported : Bool)
    (cfg : BeaconConfigM) (url body : String) (timestamp : Nat)
    (env : Nat → AttemptEnv) (headers : Headers) : Option LoopOutput :=
  if !fetchSupported || !promiseSupported then none
  else some (beaconSend cfg url body timestamp env headers)

/-! ## The throttle (`src/src/utils.ts` 81-101)

`throttle` closes over `let lastTime = 0`; `throttledFn` runs `fn` and
updates `lastTime` exactly when `now - lastTime > timeFrame`;
`resetThrottle` assigns `lastTime = 0`.  Times are modelled as `Int`
(JS millisecond epoch numbers). -/

/-- The initial value of the throttle's `lastTime` closure variable. -/
def throttleInit : Int := 0

/-- The value `resetThrottle` assigns to `lastTime`. -/
def resetThrottle : Int := 0

/-! ## The persistence queue
(`src/src/queue.ts`, third revision, lines 384-669) -/

/-- Insertion into the timestamp-keyed ordered log: the store is kept
sorted by `timestamp`; an entry with an already-present timestamp lands
after the existing ones (monotone insertion order). -/
def insertByTimestamp (e : RetryEntry) : List RetryEntry → List RetryEntry
  | [] => [e]
  | x :: xs =>
    if x.timestamp ≤ e.timestamp then x :: insertByTimestamp e xs
    else e :: x :: xs

/-- The `pushIfNotClearing` primitive of the `idb-queue` engine: a
conditional insert that no-ops while a clear is in progress. -/
def pushIfNotClearing (clearing : Bool) (e : RetryEntry)
    (store : List RetryEntry) : List RetryEntry :=
  if clearing then store else insertByTimestamp e store

/-- `Queue.replayEntries` (`queue.ts` 513-604), one notify burst, for the
case in which no durable-store operation rejects.  `oracle k` is what
`fetchFn` resolves with for the `k`-th replayed request.  Each round
shifts the head entry; on `success` the loop drains on; otherwise it
reconciles: drop when the attempt limit is exceeded, re-enqueue through
`pushIfNotClearing` when the failure is `network` or its status code is
in `config.allowedPersistRetryStatusCodes` (the re-pushed record is
rebuilt from `url`, `body`, `timestamp`, `statusCode` and
`attemptCount + 1` only — the source omits `headers`), drop otherwise;
in every non-success case the loop stops.  Returns the store after the
burst. -/
def replayEntries (attemptLimit : Nat) (allowed : List Nat)
    (clearing : Bool) (oracle : Nat → RequestResult) (k : Nat) :
    List RetryEntry → List RetryEntry
  | [] => []
  | e :: rest =>
    match oracle k with
    | .success _ _ => replayEntries attemptLimit allowed clearing oracle (k + 1) rest
    | failure =>
      if e.attemptCount + 1 > attemptLimit then rest
      else if (match failure with
               | .network _ _ => true
               | .response _ c _ => allowed.contains c
               | _ => false) then
        pushIfNotClearing clearing
          { url := e.url, body := e.body, headers := none,
            statusCode := e.statusCode, timestamp := e.timestamp,
            attemptCount := e.attemptCount + 1 } rest
      else rest

/-- The mutable state of one `Queue`: the `disablePersistence` latch, the
durable store contents, and the throttle's `lastTime`. -/
structure QueueState where
  disabled : Bool
  store : List RetryEntry
  lastTime : Int
deriving Repr, DecidableEq

/-- A freshly constructed `Queue` (`queue.ts` 424-452): the latch starts
cleared unless the store open already failed (`createStore`'s `onError`
sets `disablePersistence = true`), the durable contents are whatever
survived from earlier page loads, and the throttle starts at
`throttleInit`. -/
def initQueueState (openFailed : Bool) (durable : List RetryEntry) : QueueState :=
  { disabled := openFailed, store := durable, lastTime := throttleInit }

/-- One public operation on the queue.  `notify` carries `Date.now()` and
the `allowedPersistRetryStatusCodes` of its `QueueNotificationConfig`. -/
inductive QueueOp where
  | push (e : RetryEntry)
  | notify (now : Int) (allowed : List Nat)
  | clear
  | peek (count : Nat)
  | peekBack (count : Nat)
deriving Repr

/-- The environment one operation runs in: whether the durable-store
operation(s) it issues reject, whether the engine is mid-clear (for
`pushIfNotClearing`), and the transport outcomes of a replay burst. -/
structure StepEnv where
  storeFails : Bool
  clearing : Bool
  fetched : Nat → RequestResult

/-- What an operation's promise resolves with: `done` for void-valued
operations, the entry list for `peek`/`peekBack`, and for `notify`
whether the throttled replay burst ran. -/
inductive OpAnswer where
  | done
  | entries (es : List RetryEntry)
  | burst (ran : Bool)
deriving Repr, DecidableEq

/-- One step of the queue (`queue.ts` 454-604).

* `push` (461-479): no-op when latched; a rejected `pushIfNotClearing`
  sets the latch; a resolved one inserts (or no-ops mid-clear) and calls
  `resetThrottle`.
* `notify` (454-459 with `throttle`, 513-604): no-op when latched;
  otherwise the throttled function runs the replay exactly when
  `now - lastTime > throttleWait`, updating `lastTime`; a rejection
  inside the burst (the `shift`, or the `pushIfNotClearing` it chains
  to) sets the latch — the embedding places the rejection at the first
  store access, leaving the store unchanged.
* `clear` (481-489): resolves immediately when latched; a rejection sets
  the latch; otherwise the store is emptied.
* `peek`/`peekBack` (491-511): resolve `[]` when latched; a rejection
  sets the latch and resolves `[]`; otherwise they read the front/back
  of the store. -/
def queueStep (attemptLimit : Nat) (throttleWait : Int) (s : QueueState)
    (op : QueueOp) (env : StepEnv) : QueueState × OpAnswer :=
  match op with
  | .push e =>
    if s.disabled then (s, .done)
    else if env.storeFails then ({ s with disabled := true }, .done)
    else ({ s with store := pushIfNotClearing env.clearing e s.store,
                   lastTime := resetThrottle }, .done)
  | .notify now allowed =>
    if s.disabled then (s, .burst false)
    else if now - s.lastTime > throttleWait then
      if env.storeFails then
        ({ s with disabled := true, lastTime := now }, .burst true)
      else
        ({ s with store := replayEntries attemptLimit allowed env.clearing
                             env.fetched 0 s.store,
                   lastTime := now }, .burst true)
    else (s, .burst false)
  | .clear =>
    if s.disabled then (s, .done)
    else if env.storeFails then ({ s with disabled := true }, .done)
    else ({ s with store := [] }, .done)
  | .peek count =>
    if s.disabled then (s, .entries [])
    else if env.storeFails then ({ s with disabled := true }, .entries [])
    else (s, .entries (s.store.take count))
  | .peekBack count =>
    if s.disabled then (s, .entries [])
    else if env.storeFails then ({ s with disabled := true }, .entries [])
    else (s, .entries (s.store.reverse.take count))

/-- Run a sequence of operations, collecting the answers. -/
def runOps (attemptLimit : Nat) (throttleWait : Int) (s : QueueState) :
    List (QueueOp × StepEnv) → QueueState × List OpAnswer
  | [] => (s, [])
  | (op, env) :: rest =>
    let r := queueStep attemptLimit throttleWait s op env
    let rr := runOps attemptLimit throttleWait r.1 rest
    (rr.1, r.2 :: rr.2)

/-- The answer a latched queue gives each operation. -/
def noopAnswer : QueueOp → OpAnswer
  | .push _ => .done
  | .notify _ _ => .burst false
  | .clear => .done
  | .peek _ => .entries []
  | .peekBack _ => .entries []

/-- Does this operation reach the durable store (so that a store
rejection is possible)?  A `notify` inside the throttle window issues no
store operation. -/
def touchesStore (throttleWait : Int) (s : QueueState) : QueueOp → Bool
  | .notify now _ => decide (now - s.lastTime > throttleWait)
  | _ => true

/-! ## `RetryDB` (`queue.ts` 628-669): the listener set over the queue -/

/-- `RetryDB` state: the queue plus the `beaconListeners` set (a JS
`Set`, i.e. deduplicated, iterated in insertion order; callbacks are
identified by `Nat` ids). -/
structure RetryDBState where
  qs : QueueState
  listeners : List Nat
deriving Repr, DecidableEq

/-- `RetryDB.onClear` (`queue.ts` 663-665): `Set.add`. -/
def dbOnClear (s : RetryDBState) (cb : Nat) : RetryDBState :=
  if s.listeners.contains cb then s
  else { s with listeners := s.listeners ++ [cb] }

/-- `RetryDB.removeOnClear` (`queue.ts` 666-668): `Set.delete`. -/
def dbRemoveOnClear (s : RetryDBState) (cb : Nat) : RetryDBState :=
  { s with listeners := s.listeners.filter (fun x => x ≠ cb) }

/-- `RetryDB.clearQueue` (`queue.ts` 650-653): synchronously invoke every
registered listener (in insertion order), then delegate to
`Queue.clear`.  Returns the list of invoked callbacks and the new
state. -/
def dbClearQueue (attemptLimit : Nat) (throttleWait : Int)
    (s : RetryDBState) (env : StepEnv) : List Nat × RetryDBState :=
  let invoked := s.listeners
  let r := queueStep attemptLimit throttleWait s.qs .clear env
  (invoked, { s with qs := r.1 })

/-- `RetryDB.peekQueue` (`queue.ts` 655-657). -/
def dbPeekQueue (attemptLimit : Nat) (throttleWait : Int)
    (s : RetryDBState) (count : Nat) (env : StepEnv) :
    List RetryEntry × RetryDBState :=
  let r := queueStep attemptLimit throttleWait s.qs (.peek count) env
  ((match r.2 with | .entries es => es | _ => []), { s with qs := r.1 })

/-! ## Helper lemmas -/

/-- Assigning a header makes its key present. -/
theorem headersHaveKey_setHeader (h : Headers) (k v : String) :
    headersHaveKey (setHeader h k v) k = true := by
  unfold setHeader headersHaveKey
  split
  · rename_i hany
    rw [List.any_eq_true] at hany ⊢
    obtain ⟨p, hp, hk⟩ := hany
    refine ⟨(k, v), ?_, by simp⟩
    rw [List.mem_map]
    exact ⟨p, hp, by simp [hk]⟩
  · simp [List.any_append]

/-- The header builder is the identity at attempt index 0. -/
theorem createHeaders_attempt_zero (h : Headers) (hn : Option String)
    (ec : Option Nat) : createHeaders h hn 0 ec = h := by
  unfold createHeaders
  cases hn with
  | none => rfl
  | some n => simp

/-- At attempt index ≥ 1 with a nonempty header name, the header builder
assigns the retry-context header. -/
theorem createHeaders_pos (h : Headers) (nm : String) (a : Nat)
    (ec : Option Nat) (hne : nm ≠ "") (ha : 1 ≤ a) :
    createHeaders h (some nm) a ec = setHeader h nm (jsonRetryContext a ec) := by
  have ha2 : ¬ a < 1 := by omega
  simp [createHeaders, hne, ha2]

/-- With no configured header name every entry the attempt loop pushes
carries exactly the caller's headers object. -/
theorem beaconLoop_headers_none (cfg : BeaconConfigM) (url body : String)
    (ts : Nat) (env : Nat → AttemptEnv) (hn : cfg.headerName = none) :
    ∀ rcl (hcur : Headers) (ec : Option Nat) (e : RetryEntry),
      e ∈ (beaconLoop cfg url body ts env rcl hcur ec).pushed →
      e.headers = some hcur := by
  intro rcl
  induction rcl with
  | zero =>
    intro hcur ec e he
    rw [beaconLoop.eq_1] at he
    rcases hres : (env (getAttemptCount cfg.limit 0 - 1)).result with c | c | _ | _
    · simp [hres] at he
    · by_cases hsp : shouldPersist cfg (env (getAttemptCount cfg.limit 0 - 1)) 0
          (SendOutcome.response c) = true
      · simp [hres, hsp, hn, createHeaders] at he
        simp [he]
      · simp [hres, hsp] at he
    · by_cases hsp : shouldPersist cfg (env (getAttemptCount cfg.limit 0 - 1)) 0
          SendOutcome.network = true
      · simp [hres, hsp, hn, createHeaders] at he
        simp [he]
      · simp [hres, hsp] at he
    · simp [hres] at he
  | succ m ih =>
    intro hcur ec e he
    rw [beaconLoop.eq_1] at he
    rcases hres : (env (getAttemptCount cfg.limit (m + 1) - 1)).result with c | c | _ | _
    · simp [hres] at he
    · by_cases hsp : shouldPersist cfg (env (getAttemptCount cfg.limit (m + 1) - 1))
          (m + 1) (SendOutcome.response c) = true
      · simp [hres, hsp, hn, createHeaders] at he
        simp [he]
      · by_cases hret : isRetryableError cfg (SendOutcome.response c) = true
        · simp [hres, hsp, hret, hn, createHeaders] at he
          exact ih hcur (some c) e he
        · simp [hres, hsp, hret] at he
    · by_cases hsp : shouldPersist cfg (env (getAttemptCount cfg.limit (m + 1) - 1))
          (m + 1) SendOutcome.network = true
      · simp [hres, hsp, hn, createHeaders] at he
        simp [he]
      · by_cases hret : isRetryableError cfg SendOutcome.network = true
        · simp [hres, hsp, hret, hn, createHeaders] at he
          exact ih hcur none e he
        · simp [hres, hsp, hret] at he
    · simp [hres] at he

/-- With a configured (nonempty) header name `n` and caller headers that
do not yet contain `n`: every entry pushed by the attempt loop either
was pushed on the first attempt and carries the caller headers
unchanged, or was pushed on a later attempt and carries a headers map
that contains the retry-context header `n` (the in-place mutation done
by the header builder). -/
theorem beaconLoop_headers_some (cfg : BeaconConfigM) (url body : String)
    (ts : Nat) (env : Nat → AttemptEnv) (n : String)
    (hn : cfg.headerName = some n) (hne : n ≠ "") :
    ∀ rcl (hcur : Headers) (ec : Option Nat),
      (getAttemptCount cfg.limit rcl ≤ 2 → headersHaveKey hcur n = false) →
      ∀ e ∈ (beaconLoop cfg url body ts env rcl hcur ec).pushed,
        getAttemptCount cfg.limit rcl ≤ e.attemptCount ∧
        (e.attemptCount = 1 → e.headers = some hcur) ∧
        (2 ≤ e.attemptCount →
          ∃ h2, e.headers = some h2 ∧ headersHaveKey h2 n = true) := by
  intro rcl
  induction rcl with
  | zero =>
    intro hcur ec hInv e he
    rw [beaconLoop.eq_1] at he
    rcases hres : (env (getAttemptCount cfg.limit 0 - 1)).result with c | c | _ | _
    · simp [hres] at he
    · by_cases hsp : shouldPersist cfg (env (getAttemptCount cfg.limit 0 - 1)) 0
          (SendOutcome.response c) = true
      · simp [hres, hsp, hn] at he
        subst he
        refine ⟨by simp, ?_, ?_⟩
        · intro h1
          simp only at h1 ⊢
          have ha0 : getAttemptCount cfg.limit 0 - 1 = 0 := by
            simp [getAttemptCount] at h1 ⊢
            omega
          rw [ha0, createHeaders_attempt_zero]
        · intro h2
          simp only at h2 ⊢
          have ha1 : 1 ≤ getAttemptCount cfg.limit 0 - 1 := by
            simp [getAttemptCount] at h2 ⊢
            omega
          exact ⟨_, rfl, by
            rw [createHeaders_pos hcur n _ ec hne ha1]
            exact headersHaveKey_setHeader hcur n _⟩
      · simp [hres, hsp] at he
    · by_cases hsp : shouldPersist cfg (env (getAttemptCount cfg.limit 0 - 1)) 0
          SendOutcome.network = true
      · simp [hres, hsp, hn] at he
        subst he
        refine ⟨by simp, ?_, ?_⟩
        · intro h1
          simp only at h1 ⊢
          have ha0 : getAttemptCount cfg.limit 0 - 1 = 0 := by
            simp [getAttemptCount] at h1 ⊢
            omega
          rw [ha0, createHeaders_attempt_zero]
        · intro h2
          simp only at h2 ⊢
          have ha1 : 1 ≤ getAttemptCount cfg.limit 0 - 1 := by
            simp [getAttemptCount] at h2 ⊢
            omega
          exact ⟨_, rfl, by
            rw [createHeaders_pos hcur n _ ec hne ha1]
            exact headersHaveKey_setHeader hcur n _⟩
      · simp [hres, hsp] at he
    · simp [hres] at he
  | succ m ih =>
    intro hcur ec hInv e he
    rw [beaconLoop.eq_1] at he
    rcases hres : (env (getAttemptCount cfg.limit (m + 1) - 1)).result with c | c | _ | _
    · simp [hres] at he
    · by_cases hsp : shouldPersist cfg (env (getAttemptCount cfg.limit (m + 1) - 1))
          (m + 1) (SendOutcome.response c) = true
      · simp [hres, hsp, hn] at he
        subst he
        refine ⟨by simp, ?_, ?_⟩
        · intro h1
          simp only at h1 ⊢
          have ha0 : getAttemptCount cfg.limit (m + 1) - 1 = 0 := by
            simp [getAttemptCount] at h1 ⊢
            omega
          rw [ha0, createHeaders_attempt_zero]
        · intro h2
          simp only at h2 ⊢
          have ha1 : 1 ≤ getAttemptCount cfg.limit (m + 1) - 1 := by
            simp [getAttemptCount] at h2 ⊢
            omega
          exact ⟨_, rfl, by
            rw [createHeaders_pos hcur n _ ec hne ha1]
            exact headersHaveKey_setHeader hcur n _⟩
      · by_cases hret : isRetryableError cfg (SendOutcome.response c) = true
        · simp [hres, hsp, hret, hn] at he
          have hInv2 : getAttemptCount cfg.limit m ≤ 2 →
              headersHaveKey (createHeaders hcur (some n)
                (getAttemptCount cfg.limit (m + 1) - 1) ec) n = false := by
            intro hA2
            have ha0 : getAttemptCount cfg.limit (m + 1) - 1 = 0 := by
              simp [getAttemptCount] at hA2 ⊢
              omega
            rw [ha0, createHeaders_attempt_zero]
            exact hInv (by
              simp [getAttemptCount] at hA2 ⊢
              omega)
          obtain ⟨hb, h1, h2⟩ := ih (createHeaders hcur (some n)
            (getAttemptCount cfg.limit (m + 1) - 1) ec) (some c) hInv2 e he
          refine ⟨?_, ?_, h2⟩
          · have hle : getAttemptCount cfg.limit (m + 1) ≤
                getAttemptCount cfg.limit m := by
              simp [getAttemptCount]
              omega
            omega
          · intro he1
            rw [he1] at hb
            have ha0 : getAttemptCount cfg.limit (m + 1) - 1 = 0 := by
              simp [getAttemptCount] at hb ⊢
              omega
            rw [h1 he1, ha0, createHeaders_attempt_zero]
        · simp [hres, hsp, hret] at he
    · by_cases hsp : shouldPersist cfg (env (getAttemptCount cfg.limit (m + 1) - 1))
          (m + 1) SendOutcome.network = true
      · simp [hres, hsp, hn] at he
        subst he
        refine ⟨by simp, ?_, ?_⟩
        · intro h1
          simp only at h1 ⊢
          have ha0 : getAttemptCount cfg.limit (m + 1) - 1 = 0 := by
            simp [getAttemptCount] at h1 ⊢
            omega
          rw [ha0, createHeaders_attempt_zero]
        · intro h2
          simp only at h2 ⊢
          have ha1 : 1 ≤ getAttemptCount cfg.limit (m + 1) - 1 := by
            simp [getAttemptCount] at h2 ⊢
            omega
          exact ⟨_, rfl, by
            rw [createHeaders_pos hcur n _ ec hne ha1]
            exact headersHaveKey_setHeader hcur n _⟩
      · by_cases hret : isRetryableError cfg SendOutcome.network = true
        · simp [hres, hsp, hret, hn] at he
          have hInv2 : getAttemptCount cfg.limit m ≤ 2 →
              headersHaveKey (createHeaders hcur (some n)
                (getAttemptCount cfg.limit (m + 1) - 1) ec) n = false := by
            intro hA2
            have ha0 : getAttemptCount cfg.limit (m + 1) - 1 = 0 := by
              simp [getAttemptCount] at hA2 ⊢
              omega
            rw [ha0, createHeaders_attempt_zero]
            exact hInv (by
              simp [getAttemptCount] at hA2 ⊢
              omega)
          obtain ⟨hb, h1, h2⟩ := ih (createHeaders hcur (some n)
            (getAttemptCount cfg.limit (m + 1) - 1) ec) none hInv2 e he
          refine ⟨?_, ?_, h2⟩
          · have hle : getAttemptCount cfg.limit (m + 1) ≤
                getAttemptCount cfg.limit m := by
              simp [getAttemptCount]
              omega
            omega
          · intro he1
            rw [he1] at hb
            have ha0 : getAttemptCount cfg.limit (m + 1) - 1 = 0 := by
              simp [getAttemptCount] at hb ⊢
              omega
            rw [h1 he1, ha0, createHeaders_attempt_zero]
        · simp [hres, hsp, hret] at he
    · simp [hres] at he

/-! ## Claims -/

/-- C1 (counterexample).  At a concrete input where the claim's persist
predicate holds — clear not pending, persistence enabled, a `response`
failure whose status code 429 is in the persistence allow-list — the
`part_020` attempt loop does push the entry, but the call resolves with
the original `response` result, whose type tag is `response`, not
`persisted`: the claim's final conjunct is false on this code. -/
theorem c1_counterexample :
    shouldPersist
      { limit := 0, headerName := none, persist := true,
        inMemoryRetryStatusCodes := [502, 504],
        persistRetryStatusCodes := [429, 503] }
      { result := .response 429, online := true, clearPending := false } 0
      (SendOutcome.response 429) = true ∧
    (beaconSend
      { limit := 0, headerName := none, persist := true,
        inMemoryRetryStatusCodes := [502, 504],
        persistRetryStatusCodes := [429, 503] }
      "https://collect.example" "payload" 7
      (fun _ => { result := .response 429, online := true, clearPending := false })
      []).pushed =
      [{ url := "https://collect.example", body := "payload",
         headers := some [], statusCode := some 429, timestamp := 7,
         attemptCount := 1 }] ∧
    (beaconSend
      { limit := 0, headerName := none, persist := true,
        inMemoryRetryStatusCodes := [502, 504],
        persistRetryStatusCodes := [429, 503] }
      "https://collect.example" "payload" 7
      (fun _ => { result := .response 429, online := true, clearPending := false })
      []).result = SendOutcome.response 429 ∧
    SendOutcome.rtype (SendOutcome.response 429) ≠ ResultType.persisted := by
  refine ⟨by decide, by decide, by decide, by decide⟩

/-- C1 (amended).  In every iteration of the attempt loop that observes a
response or network failure, if the persist predicate holds (clear is
not pending, persistence is enabled, and either the browser is offline,
or `retryCountLeft = 0` with a network-type failure, or the failure is a
response whose status code is in the persistence allow-list), then the
entry `{url, body, headers, statusCode, timestamp, attemptCount =
attempt}` — where `headers` is the caller's headers object as already
mutated by the send-time header builder — is pushed to the persistence
queue, no notify is issued, and the beacon call resolves with the
observed failure result itself (type `response` or `network`, carrying
the same status code), not with a `persisted`-tagged result. -/
theorem c1_amended (cfg : BeaconConfigM) (url body : String) (ts : Nat)
    (env : Nat → AttemptEnv) (rcl : Nat) (hcur : Headers) (ec : Option Nat)
    (hfail : ((env (getAttemptCount cfg.limit rcl - 1)).result).isFailure = true)
    (hpred : (env (getAttemptCount cfg.limit rcl - 1)).clearPending = false ∧
        cfg.persist = true ∧
        ((env (getAttemptCount cfg.limit rcl - 1)).online = false ∨
         (rcl = 0 ∧
          (env (getAttemptCount cfg.limit rcl - 1)).result = SendOutcome.network) ∨
         (∃ c, (env (getAttemptCount cfg.limit rcl - 1)).result =
                 SendOutcome.response c ∧
               c ∈ cfg.persistRetryStatusCodes))) :
    beaconLoop cfg url body ts env rcl hcur ec =
      { result := (env (getAttemptCount cfg.limit rcl - 1)).result,
        pushed := [{ url := url, body := body,
                     headers := some (createHeaders hcur cfg.headerName
                       (getAttemptCount cfg.limit rcl - 1) ec),
                     statusCode :=
                       ((env (getAttemptCount cfg.limit rcl - 1)).result).statusCode?,
                     timestamp := ts,
                     attemptCount := getAttemptCount cfg.limit rcl }],
        notified := false,
        finalHeaders := createHeaders hcur cfg.headerName
          (getAttemptCount cfg.limit rcl - 1) ec } := by
  obtain ⟨hc, hp, hdis⟩ := hpred
  have hsp : shouldPersist cfg (env (getAttemptCount cfg.limit rcl - 1)) rcl
      ((env (getAttemptCount cfg.limit rcl - 1)).result) = true := by
    rcases hdis with hoff | ⟨h0, hnet⟩ | ⟨c, hresp, hmem⟩
    · simp [shouldPersist, hc, hp, hoff]
    · subst h0
      simp [shouldPersist, hc, hp, hnet]
    · have hmem2 : cfg.persistRetryStatusCodes.contains c = true := by
        simpa using hmem
      by_cases honline : (env (getAttemptCount cfg.limit rcl - 1)).online <;>
        simp [shouldPersist, hc, hp, hresp, hmem2, hmem, honline]
  rcases hres : (env (getAttemptCount cfg.limit rcl - 1)).result with c | c | _ | _
  · rw [hres] at hfail
    simp [SendOutcome.isFailure] at hfail
  · rw [hres] at hsp
    cases rcl with
    | zero => simp [beaconLoop, hres, hsp]
    | succ n => simp [beaconLoop, hres, hsp]
  · rw [hres] at hsp
    cases rcl with
    | zero => simp [beaconLoop, hres, hsp]
    | succ n => simp [beaconLoop, hres, hsp]
  · rw [hres] at hfail
    simp [SendOutcome.isFailure] at hfail

/-- Witness for C1 (amended): a single-attempt beacon over a 503
response with persistence enabled pushes the entry and resolves with the
`response 503` result. -/
theorem c1_amended_witness :
    beaconLoop
      { limit := 0, headerName := none, persist := true,
        inMemoryRetryStatusCodes := [502, 504],
        persistRetryStatusCodes := [429, 503] }
      "u" "b" 7
      (fun _ => { result := .response 503, online := true, clearPending := false })
      0 [] none =
      { result := SendOutcome.response 503,
        pushed := [{ url := "u", body := "b", headers := some [],
                     statusCode := some 503, timestamp := 7, attemptCount := 1 }],
        notified := false, finalHeaders := [] } := by
  have h := c1_amended
    { limit := 0, headerName := none, persist := true,
      inMemoryRetryStatusCodes := [502, 504],
      persistRetryStatusCodes := [429, 503] }
    "u" "b" 7
    (fun _ => { result := .response 503, online := true, clearPending := false })
    0 [] none (by decide)
    ⟨rfl, rfl, Or.inr (Or.inr ⟨503, rfl, by decide⟩)⟩
  exact h

/-- C2 (counterexample).  In the no-fetch environment the claim says a
plain XHR POST is fired and a synthetic `unknown` result is returned.
In `part_020` the no-fetch branch is `return xhr(url, body, headers)`
and `xhr` (`part_012`) returns `undefined`: the call yields no promise
and no tagged result at all, modelled as `none`. -/
theorem c2_counterexample :
    beaconFunc false true
      { limit := 0, headerName := none, persist := false,
        inMemoryRetryStatusCodes := [502, 504],
        persistRetryStatusCodes := [429, 503] }
      "https://collect.example" "payload" 0
      (fun _ => { result := .network, online := true, clearPending := false })
      [] = none := rfl

/-- C2 (amended).  `keepaliveFetch` always resolves with a tagged result
of type `success`, `response` or `network`; `fallbackFetch` adds
`unknown`; when fetch is available, `beacon` never throws and always
resolves with a tagged result whose type is one of
`{success, unknown, response, network}` (never `persisted` in this
revision); in the no-fetch environment, the XHR is fired and the call
returns `undefined` — no promise and no synthetic result. -/
theorem c2_amended :
    (∀ f1 f2 : FetchOutcome, (keepaliveFetch f1 f2).rtype ∈
        [ResultType.success, ResultType.response, ResultType.network]) ∧
    (∀ (sb sa : Bool) (f : FetchOutcome), (fallbackFetch sb sa f).rtype ∈
        [ResultType.success, ResultType.unknown, ResultType.response,
         ResultType.network]) ∧
    (∀ cfg url body ts env (h : Headers), ∃ out,
        beaconFunc true true cfg url body ts env h = some out ∧
        out.result.rtype ∈
          [ResultType.success, ResultType.unknown, ResultType.response,
           ResultType.network]) ∧
    (∀ (ps : Bool) cfg url body ts env (h : Headers),
        beaconFunc false ps cfg url body ts env h = none) := by
  refine ⟨?_, ?_, ?_, ?_⟩
  · intro f1 f2
    rcases f1 with ⟨ok, st, tx⟩ | m
    · cases ok <;> simp [keepaliveFetch, RequestResult.rtype]
    · rcases f2 with ⟨ok2, st2, tx2⟩ | m2
      · cases ok2 <;> simp [keepaliveFetch, RequestResult.rtype]
      · simp [keepaliveFetch, RequestResult.rtype]
  · intro sb sa f
    by_cases hsb : (sb && sa) = true
    · simp [fallbackFetch, hsb, RequestResult.rtype]
    · rcases f with ⟨ok, st, tx⟩ | m
      · cases ok <;> simp [fallbackFetch, hsb, RequestResult.rtype]
      · simp [fallbackFetch, hsb, RequestResult.rtype]
  · intro cfg url body ts env h
    refine ⟨beaconSend cfg url body ts env h, rfl, ?_⟩
    cases (beaconSend cfg url body ts env h).result <;> simp [SendOutcome.rtype]
  · intro ps cfg url body ts env h
    rfl

/-- C3 (confirmed).  The header builder returns the caller headers
unchanged when the header name is unset or the attempt index is below 1;
otherwise it returns the caller headers with the single entry
`headerName := JSON.stringify({attempt, errorCode})` assigned, where
`errorCode` is omitted from the JSON object when it is `undefined`. -/
theorem c3_createHeaders (h : Headers) (n : String) (a : Nat) (e : Option Nat) :
    createHeaders h none a e = h ∧
    (a < 1 → createHeaders h (some n) a e = h) ∧
    (n ≠ "" → 1 ≤ a → createHeaders h (some n) a e =
      setHeader h n ("\x7b\"attempt\":" ++ toString a ++
        (match e with
         | none => ""
         | some c => ",\"errorCode\":" ++ toString c) ++ "\x7d")) := by
  refine ⟨rfl, ?_, ?_⟩
  · intro ha
    simp [createHeaders, ha]
  · intro hn ha
    have ha2 : ¬ a < 1 := by omega
    simp [createHeaders, jsonRetryContext, hn, ha2]

/-- Witness for C3: at attempt index 2 with error code 429 the builder
assigns the serialized retry context under the configured name. -/
theorem c3_createHeaders_witness :
    createHeaders [("a", "b")] (some "x-retry-context") 2 (some 429) =
      setHeader [("a", "b")] "x-retry-context"
        ("\x7b\"attempt\":" ++ toString 2 ++ ",\"errorCode\":" ++ toString 429 ++
          "\x7d") :=
  (c3_createHeaders [("a", "b")] "x-retry-context" 2 (some 429)).2.2
    (by decide) (by decide)

/-- C4 (counterexample).  With `headerName = "x-retry-context"`, in-memory
limit 1 and two successive network failures while online, persistence
occurs on the second attempt (attempt index 1); because the header
builder mutated the caller's headers object in place on that attempt,
the entry handed to `pushToQueue` carries the retry-context header —
the claim that a persisted entry's headers always exclude it is false. -/
theorem c4_counterexample :
    (beaconSend
      { limit := 1, headerName := some "x-retry-context", persist := true,
        inMemoryRetryStatusCodes := [502, 504],
        persistRetryStatusCodes := [429, 503] }
      "u" "b" 7
      (fun _ => { result := .network, online := true, clearPending := false })
      []).pushed =
      [{ url := "u", body := "b",
         headers := some [("x-retry-context", "\x7b\"attempt\":1\x7d")],
         statusCode := none, timestamp := 7, attemptCount := 2 }] ∧
    headersHaveKey [("x-retry-context", "\x7b\"attempt\":1\x7d")]
      "x-retry-context" = true := by
  refine ⟨by decide, by decide⟩

/-- C4 (amended).  For every `RetryEntry` a Beacon hands to `pushToQueue`:
when no retry-context header name is configured, the entry's headers are
exactly the caller's headers; when a (nonempty) name `n` is configured
and the caller headers do not contain `n`, an entry persisted on the
first attempt (attemptCount 1) still carries the caller headers, which
exclude `n` — but an entry persisted on any later attempt carries a
headers map that does contain the retry-context header `n`, because the
send-time header builder mutates the shared headers object in place. -/
theorem c4_amended (cfg : BeaconConfigM) (url body : String) (ts : Nat)
    (env : Nat → AttemptEnv) (hcur : Headers) :
    (cfg.headerName = none →
      ∀ e ∈ (beaconSend cfg url body ts env hcur).pushed,
        e.headers = some hcur) ∧
    (∀ n, cfg.headerName = some n → n ≠ "" → headersHaveKey hcur n = false →
      ∀ e ∈ (beaconSend cfg url body ts env hcur).pushed,
        (e.attemptCount = 1 →
          e.headers = some hcur ∧ headersHaveKey hcur n = false) ∧
        (2 ≤ e.attemptCount →
          ∃ h2, e.headers = some h2 ∧ headersHaveKey h2 n = true)) := by
  constructor
  · intro hn e he
    exact beaconLoop_headers_none cfg url body ts env hn cfg.limit hcur none e he
  · intro n hn hne h0 e he
    have key := beaconLoop_headers_some cfg url body ts env n hn hne cfg.limit
      hcur none (fun _ => h0) e he
    exact ⟨fun h1 => ⟨key.2.1 h1, h0⟩, key.2.2⟩

/-- Witness for C4 (amended): a beacon with limit 0 persisting a 429 on
its first attempt pushes the caller headers unchanged, without the
configured retry-context header. -/
theorem c4_amended_witness :
    (({ url := "u", body := "b", headers := some [("a", "b")],
        statusCode := some 429, timestamp := 7,
        attemptCount := 1 } : RetryEntry).attemptCount = 1 →
      ({ url := "u", body := "b", headers := some [("a", "b")],
         statusCode := some 429, timestamp := 7,
         attemptCount := 1 } : RetryEntry).headers = some [("a", "b")] ∧
      headersHaveKey [("a", "b")] "x-retry-context" = false) ∧
    (2 ≤ ({ url := "u", body := "b", headers := some [("a", "b")],
            statusCode := some 429, timestamp := 7,
            attemptCount := 1 } : RetryEntry).attemptCount →
      ∃ h2, ({ url := "u", body := "b", headers := some [("a", "b")],
               statusCode := some 429, timestamp := 7,
               attemptCount := 1 } : RetryEntry).headers = some h2 ∧
            headersHaveKey h2 "x-retry-context" = true) :=
  (c4_amended
    { limit := 0, headerName := some "x-retry-context", persist := true,
      inMemoryRetryStatusCodes := [502, 504],
      persistRetryStatusCodes := [429, 503] }
    "u" "b" 7
    (fun _ => { result := .response 429, online := true, clearPending := false })
    [("a", "b")]).2 "x-retry-context" rfl (by decide) (by decide)
    { url := "u", body := "b", headers := some [("a", "b")],
      statusCode := some 429, timestamp := 7, attemptCount := 1 }
    (by decide)

/-- C5 (confirmed).  In the replay loop, when the replay send of the
popped entry fails and `entry.attemptCount + 1 > attemptLimit`, the
entry is dropped — it is not re-enqueued — and the loop stops: the store
is left exactly at the remaining entries.  In particular an entry whose
`attemptCount` has reached `attemptLimit` is never re-enqueued on a
failure. -/
theorem c5_dropAtLimit (attemptLimit : Nat) (allowed : List Nat)
    (clearing : Bool) (oracle : Nat → RequestResult) (k : Nat)
    (e : RetryEntry) (rest : List RetryEntry)
    (hfail : (oracle k).isSuccess = false) :
    (e.attemptCount + 1 > attemptLimit →
      replayEntries attemptLimit allowed clearing oracle k (e :: rest) = rest) ∧
    (attemptLimit ≤ e.attemptCount →
      replayEntries attemptLimit allowed clearing oracle k (e :: rest) = rest) := by
  have main : e.attemptCount + 1 > attemptLimit →
      replayEntries attemptLimit allowed clearing oracle k (e :: rest) = rest := by
    intro hgt
    unfold replayEntries
    cases hora : oracle k with
    | success d s =>
      rw [hora] at hfail
      simp [RequestResult.isSuccess] at hfail
    | response d c r => simp [hgt]
    | network d r => simp [hgt]
    | unknown d => simp [hgt]
  exact ⟨main, fun hle => main (by omega)⟩

/-- Witness for C5: an entry already at the attempt limit 2 is dropped by
a failing replay (429), emptying the store. -/
theorem c5_dropAtLimit_witness :
    replayEntries 2 [429] false (fun _ => RequestResult.response false 429 "x") 0
        [{ url := "u", body := "b", headers := none, statusCode := some 429,
           timestamp := 5, attemptCount := 2 }] = [] :=
  (c5_dropAtLimit 2 [429] false (fun _ => RequestResult.response false 429 "x") 0
      { url := "u", body := "b", headers := none, statusCode := some 429,
        timestamp := 5, attemptCount := 2 } [] (by decide)).2 (by decide)

/-- C6 (counterexample).  A replayed entry carrying caller headers that
fails with an allowed status code is re-enqueued, but the re-enqueued
record is not `{...entry, attemptCount := attemptCount + 1}`: the source
rebuilds it without the `headers` field, so the stored headers are
dropped. -/
theorem c6_counterexample :
    replayEntries 3 [429] false (fun _ => RequestResult.response false 429 "") 0
        [{ url := "u", body := "b", headers := some [("a", "b")],
           statusCode := some 429, timestamp := 5, attemptCount := 0 }] =
      [{ url := "u", body := "b", headers := none, statusCode := some 429,
         timestamp := 5, attemptCount := 1 }] ∧
    ({ url := "u", body := "b", headers := none, statusCode := some 429,
       timestamp := 5, attemptCount := 1 } : RetryEntry) ≠
      { ({ url := "u", body := "b", headers := some [("a", "b")],
           statusCode := some 429, timestamp := 5,
           attemptCount := 0 } : RetryEntry) with attemptCount := 1 } := by
  exact ⟨by decide, by decide⟩

/-- C6 (amended).  In the replay loop, for a popped entry whose replay
send fails with `attemptCount + 1 ≤ attemptLimit`: the entry is
re-enqueued exactly when the failure type is `network` or its status
code is in `allowedPersistRetryStatusCodes`; the re-enqueued record is
`{url, body, timestamp, statusCode, attemptCount + 1}` with the
`headers` field omitted — `url`, `body`, `timestamp` and `statusCode`
unchanged — inserted through the push-if-not-clearing conditional
primitive; otherwise the entry is dropped. -/
theorem c6_amended (attemptLimit : Nat) (allowed : List Nat) (clearing : Bool)
    (oracle : Nat → RequestResult) (k : Nat) (e : RetryEntry)
    (rest : List RetryEntry)
    (hfail : (oracle k).isSuccess = false)
    (hle : e.attemptCount + 1 ≤ attemptLimit) :
    replayEntries attemptLimit allowed clearing oracle k (e :: rest) =
      if (match oracle k with
          | RequestResult.network _ _ => true
          | RequestResult.response _ c _ => allowed.contains c
          | _ => false) then
        pushIfNotClearing clearing
          { url := e.url, body := e.body, headers := none,
            statusCode := e.statusCode, timestamp := e.timestamp,
            attemptCount := e.attemptCount + 1 } rest
      else rest := by
  have hngt : ¬ e.attemptCount + 1 > attemptLimit := by omega
  unfold replayEntries
  cases hora : oracle k with
  | success d s =>
    rw [hora] at hfail
    simp [RequestResult.isSuccess] at hfail
  | response d c r => simp [hngt]
  | network d r => simp [hngt]
  | unknown d => simp [hngt]

/-- Witness for C6 (amended): a 429 failure with 429 allowed re-enqueues
the rebuilt record through push-if-not-clearing. -/
theorem c6_amended_witness :
    replayEntries 3 [429] false (fun _ => RequestResult.response false 429 "") 0
        [{ url := "u", body := "b", headers := some [("a", "b")],
           statusCode := some 429, timestamp := 5, attemptCount := 0 }] =
      if (match RequestResult.response false 429 "" with
          | RequestResult.network _ _ => true
          | RequestResult.response _ c _ => [429].contains c
          | _ => false) then
        pushIfNotClearing false
          { url := "u", body := "b", headers := none, statusCode := some 429,
            timestamp := 5, attemptCount := 0 + 1 } []
      else [] :=
  c6_amended 3 [429] false (fun _ => RequestResult.response false 429 "") 0
    { url := "u", body := "b", headers := some [("a", "b")],
      statusCode := some 429, timestamp := 5, attemptCount := 0 } []
    (by decide) (by decide)

/-- C7 (confirmed).  The queue latches on store failures: (1) any
operation whose durable-store access rejects leaves the queue with
`disablePersistence = true` (an open failure is the latched initial
state `initQueueState true _`); (2) a latched queue answers every single
operation as a no-op — `push` and `notify` do nothing, `clear` resolves
without touching the store, `peek`/`peekBack` resolve `[]` — leaving the
state unchanged; (3) hence every subsequent operation sequence on a
latched queue is a no-op; (4) in particular, after any rejecting
operation all later operations are no-ops for the remainder of the page
lifetime. -/
theorem c7_latch :
    (∀ aL tW (s : QueueState) op env, s.disabled = false →
        env.storeFails = true → touchesStore tW s op = true →
        ((queueStep aL tW s op env).1).disabled = true) ∧
    (∀ aL tW (s : QueueState) op env, s.disabled = true →
        queueStep aL tW s op env = (s, noopAnswer op)) ∧
    (∀ aL tW (s : QueueState) ops, s.disabled = true →
        runOps aL tW s ops = (s, ops.map (fun p => noopAnswer p.1))) ∧
    (∀ aL tW (s : QueueState) op env ops, s.disabled = false →
        env.storeFails = true → touchesStore tW s op = true →
        runOps aL tW (queueStep aL tW s op env).1 ops =
          ((queueStep aL tW s op env).1,
           ops.map (fun p => noopAnswer p.1))) := by
  have latch : ∀ aL tW (s : QueueState) op env, s.disabled = false →
      env.storeFails = true → touchesStore tW s op = true →
      ((queueStep aL tW s op env).1).disabled = true := by
    intro aL tW s op env hd hf ht
    cases op with
    | push e => simp [queueStep, hd, hf]
    | notify now allowed =>
      simp [touchesStore] at ht
      simp [queueStep, hd, hf, ht]
    | clear => simp [queueStep, hd, hf]
    | peek count => simp [queueStep, hd, hf]
    | peekBack count => simp [queueStep, hd, hf]
  have noop : ∀ aL tW (s : QueueState) op env, s.disabled = true →
      queueStep aL tW s op env = (s, noopAnswer op) := by
    intro aL tW s op env hd
    cases op with
    | push e => simp [queueStep, noopAnswer, hd]
    | notify now allowed => simp [queueStep, noopAnswer, hd]
    | clear => simp [queueStep, noopAnswer, hd]
    | peek count => simp [queueStep, noopAnswer, hd]
    | peekBack count => simp [queueStep, noopAnswer, hd]
  have forever : ∀ aL tW (s : QueueState) ops, s.disabled = true →
      runOps aL tW s ops = (s, ops.map (fun p => noopAnswer p.1)) := by
    intro aL tW s ops hd
    induction ops with
    | nil => simp [runOps]
    | cons p rest ih =>
      obtain ⟨op, env⟩ := p
      simp [runOps, noop aL tW s op env hd, ih]
  refine ⟨latch, noop, forever, ?_⟩
  intro aL tW s op env ops hd hf ht
  exact forever aL tW _ ops (latch aL tW s op env hd hf ht)

/-- Witness for C7: a failing push latches a fresh queue; a latched queue
answers a peek with the empty list and a clear-then-peek sequence with
no-op answers. -/
theorem c7_latch_witness :
    ((queueStep 3 5 { disabled := false, store := [], lastTime := 0 }
        (.push { url := "u", body := "b", headers := none, statusCode := none,
                 timestamp := 1, attemptCount := 0 })
        { storeFails := true, clearing := false,
          fetched := fun _ => RequestResult.success false 200 }).1).disabled =
      true ∧
    queueStep 3 5 { disabled := true, store := [], lastTime := 0 } (.peek 4)
        { storeFails := false, clearing := false,
          fetched := fun _ => RequestResult.success false 200 } =
      ({ disabled := true, store := [], lastTime := 0 }, OpAnswer.entries []) ∧
    runOps 3 5 { disabled := true, store := [], lastTime := 0 }
        [(QueueOp.clear,
          { storeFails := false, clearing := false,
            fetched := fun _ => RequestResult.success false 200 }),
         (QueueOp.peek 2,
          { storeFails := false, clearing := false,
            fetched := fun _ => RequestResult.success false 200 })] =
      ({ disabled := true, store := [], lastTime := 0 },
       [OpAnswer.done, OpAnswer.entries []]) := by
  refine ⟨c7_latch.1 3 5 _ _ _ rfl rfl rfl,
          c7_latch.2.1 3 5 _ _ _ rfl, ?_⟩
  exact c7_latch.2.2.1 3 5 { disabled := true, store := [], lastTime := 0 }
    [(QueueOp.clear,
      { storeFails := false, clearing := false,
        fetched := fun _ => RequestResult.success false 200 }),
     (QueueOp.peek 2,
      { storeFails := false, clearing := false,
        fetched := fun _ => RequestResult.success false 200 })] rfl

/-- C8 (confirmed).  (1) A notify runs the replay burst only when
`now - lastTime > throttleWait` — at most one burst per window; (2) a
successful push resets the throttle's `lastTime` to `resetThrottle = 0`;
(3) of two notifies bracketing a successful push, the second fires the
replay whenever its epoch time exceeds `throttleWait`, however recently
the first burst ran. -/
theorem c8_throttle :
    (∀ aL tW (s : QueueState) t al env,
        (queueStep aL tW s (.notify t al) env).2 = .burst true →
        t - s.lastTime > tW) ∧
    (∀ aL tW (s : QueueState) e env, s.disabled = false →
        env.storeFails = false →
        ((queueStep aL tW s (.push e) env).1).lastTime = resetThrottle) ∧
    (∀ aL tW (s : QueueState) t1 t2 al1 al2 e env1 envp env2,
        s.disabled = false → env1.storeFails = false →
        envp.storeFails = false → t2 > tW →
        (queueStep aL tW
            ((queueStep aL tW ((queueStep aL tW s (.notify t1 al1) env1).1)
              (.push e) envp).1)
            (.notify t2 al2) env2).2 = OpAnswer.burst true) := by
  refine ⟨?_, ?_, ?_⟩
  · intro aL tW s t al env h
    by_cases hd : s.disabled
    · simp [queueStep, hd] at h
    · by_cases hw : t - s.lastTime > tW
      · exact hw
      · simp [queueStep, hd, hw] at h
  · intro aL tW s e env hd hf
    simp [queueStep, hd, hf]
  · intro aL tW s t1 t2 al1 al2 e env1 envp env2 hd h1 hp ht2
    generalize hs1eq : (queueStep aL tW s (.notify t1 al1) env1).1 = s1
    have hs1 : s1.disabled = false := by
      rw [← hs1eq]
      by_cases hw : t1 - s.lastTime > tW
      · simp [queueStep, hd, hw, h1]
      · simp [queueStep, hd, hw]
    have hpush : (queueStep aL tW s1 (.push e) envp).1 =
        { s1 with store := pushIfNotClearing envp.clearing e s1.store,
                  lastTime := resetThrottle } := by
      simp [queueStep, hs1, hp]
    rw [hpush]
    simp [queueStep, hs1, resetThrottle]
    by_cases hf2 : env2.storeFails <;> simp [hf2, ht2]

/-- Witness for C8: with wait 5, a push at a fresh queue resets the
throttle, and a notify at time 12 right after a burst at time 10 and a
successful push still fires. -/
theorem c8_throttle_witness :
    ((queueStep 3 5 { disabled := false, store := [], lastTime := 0 }
        (.push { url := "u", body := "b", headers := none, statusCode := none,
                 timestamp := 1, attemptCount := 0 })
        { storeFails := false, clearing := false,
          fetched := fun _ => RequestResult.success false 200 }).1).lastTime =
      resetThrottle ∧
    (queueStep 3 5
        ((queueStep 3 5
            ((queueStep 3 5 { disabled := false, store := [], lastTime := 0 }
                (.notify 10 [429])
                { storeFails := false, clearing := false,
                  fetched := fun _ => RequestResult.success false 200 }).1)
            (.push { url := "u", body := "b", headers := none,
                     statusCode := none, timestamp := 1, attemptCount := 0 })
            { storeFails := false, clearing := false,
              fetched := fun _ => RequestResult.success false 200 }).1)
        (.notify 12 [429])
        { storeFails := false, clearing := false,
          fetched := fun _ => RequestResult.success false 200 }).2 =
      OpAnswer.burst true := by
  constructor
  · exact c8_throttle.2.1 3 5 _ _ _ rfl rfl
  · exact c8_throttle.2.2 3 5 { disabled := false, store := [], lastTime := 0 }
      10 12 [429] [429] _ _ _ _ rfl rfl rfl (by decide)

/-- C9 (confirmed).  `clearQueue` synchronously invokes exactly the
currently registered listeners, in order — each exactly once when the
listener set is duplicate-free, which the `Set` semantics of
`beaconListeners` guarantees — before delegating the store deletion to
`Queue.clear`; and after `clearQueue` resolves, `peekQueue k` resolves
to the empty list for every count `k` (whether the clear emptied the
store, was a no-op on a latched queue, or itself failed and latched the
queue). -/
theorem c9_clear (aL : Nat) (tW : Int) (s : RetryDBState) (env : StepEnv) :
    (dbClearQueue aL tW s env).1 = s.listeners ∧
    (s.listeners.Nodup → ∀ cb ∈ s.listeners,
        (dbClearQueue aL tW s env).1.count cb = 1) ∧
    (∀ k env2,
        (dbPeekQueue aL tW (dbClearQueue aL tW s env).2 k env2).1 = []) := by
  refine ⟨rfl, ?_, ?_⟩
  · intro hnd cb hcb
    exact List.count_eq_one_of_mem hnd hcb
  · intro k env2
    unfold dbClearQueue dbPeekQueue
    by_cases hd : s.qs.disabled
    · simp [queueStep, hd]
    · by_cases hf : env.storeFails
      · simp [queueStep, hd, hf]
      · by_cases hf2 : env2.storeFails
        · simp [queueStep, hd, hf, hf2]
        · simp [queueStep, hd, hf, hf2]

/-- Witness for C9: clearing a database with listeners `[1, 2]` and one
stored entry invokes `[1, 2]`, invokes listener 1 once, and a subsequent
`peekQueue 7` resolves to the empty list. -/
theorem c9_clear_witness :
    (dbClearQueue 3 5
        { qs := { disabled := false,
                  store := [{ url := "u", body := "b", headers := none,
                              statusCode := some 429, timestamp := 5,
                              attemptCount := 0 }],
                  lastTime := 0 },
          listeners := [1, 2] }
        { storeFails := false, clearing := false,
          fetched := fun _ => RequestResult.success false 200 }).1 = [1, 2] ∧
    ([1, 2].count 1 = 1) ∧
    (dbPeekQueue 3 5
        (dbClearQueue 3 5
            { qs := { disabled := false,
                      store := [{ url := "u", body := "b", headers := none,
                                  statusCode := some 429, timestamp := 5,
                                  attemptCount := 0 }],
                      lastTime := 0 },
              listeners := [1, 2] }
            { storeFails := false, clearing := false,
              fetched := fun _ => RequestResult.success false 200 }).2 7
        { storeFails := false, clearing := false,
          fetched := fun _ => RequestResult.success false 200 }).1 = [] := by
  refine ⟨(c9_clear 3 5 _ _).1, ?_, (c9_clear 3 5 _ _).2.2 7 _⟩
  exact (c9_clear 3 5
    { qs := { disabled := false,
              store := [{ url := "u", body := "b", headers := none,
                          statusCode := some 429, timestamp := 5,
                          attemptCount := 0 }],
              lastTime := 0 },
      listeners := [1, 2] }
    { storeFails := false, clearing := false,
      fetched := fun _ => RequestResult.success false 200 }).2.1
    (by decide) 1 (by decide)

/-- C10 (confirmed).  A freshly constructed queue starts with the
throttle's `lastTime` at `throttleInit = 0`, and `resetThrottle` is
also 0; hence the first notify at any epoch time `t > throttleWait` on a
fresh (non-latched) queue runs the replay burst immediately, regardless
of how recently the queue was created and of what the durable store
holds. -/
theorem c10_freshNotify :
    (∀ (openFailed : Bool) (durable : List RetryEntry),
        (initQueueState openFailed durable).lastTime = throttleInit) ∧
    throttleInit = 0 ∧ resetThrottle = 0 ∧
    (∀ aL tW (durable : List RetryEntry) t al env, t > tW →
        (queueStep aL tW (initQueueState false durable) (.notify t al) env).2 =
          OpAnswer.burst true) := by
  refine ⟨fun _ _ => rfl, rfl, rfl, ?_⟩
  intro aL tW durable t al env ht
  have hcond : t - (initQueueState false durable).lastTime > tW := by
    simp [initQueueState, throttleInit]
    omega
  simp [queueStep, initQueueState, throttleInit] at hcond ⊢
  by_cases hf : env.storeFails <;> simp [hf, hcond]

/-- Witness for C10: the very first notify at epoch time 100 on a fresh
queue with wait 5 fires the replay burst. -/
theorem c10_freshNotify_witness :
    (queueStep 3 5 (initQueueState false []) (.notify 100 [429])
        { storeFails := false, clearing := false,
          fetched := fun _ => RequestResult.success false 200 }).2 =
      OpAnswer.burst true :=
  c10_freshNotify.2.2.2 3 5 [] 100 [429]
    { storeFails := false, clearing := false,
      fetched := fun _ => RequestResult.success false 200 } (by decide)
